import Mathlib

/-!
Verification of the domain-registration orchestrator and hosted-zone safe-delete
policy of the terraform-provider-awsdomains repository, as a shallow embedding of
the resource implementation (Create / Read / Delete of the domain resource,
findHostedZoneID and deleteRegistrarHostedZone).

Remote services (the Route53 Domains registry and the Route53 DNS service) are
modelled as environments of canned responses; each operation additionally
records the trace of remote calls it issues, so that claims about which remote
calls happen (or never happen) can be stated as trace membership.
-/

deriving instance DecidableEq for Except

namespace AwsDomains

/-! Data model -/

/-- Status of an asynchronous registry operation, polled via GetOperationDetail. -/
inductive OperationStatus
  | pending
  | inProgress
  | successful
  | failed
  | error
deriving DecidableEq, Repr

/-- Result of one GetOperationDetail call: status plus remote message. -/
structure OperationDetail where
  status : OperationStatus
  message : String
deriving DecidableEq, Repr

/-- The registry's view of a domain, as returned by GetDomainDetail. -/
structure DomainDetail where
  statusList : List String
  expirationDate : Option String
  creationDate : Option String
  nameservers : List String
  autoRenew : Option Bool
deriving DecidableEq, Repr

/-- One DNS record in a hosted zone: a name and a record-type tag. -/
structure ResourceRecordSet where
  name : String
  rtype : String
deriving DecidableEq, Repr

/-- The Config sub-object of a hosted zone (may be absent in the wire form). -/
structure HostedZoneConfig where
  privateZone : Bool
  comment : Option String
deriving DecidableEq, Repr

/-- A Route53 hosted zone as seen through ListHostedZonesByName. -/
structure HostedZone where
  name : String
  id : String
  config : Option HostedZoneConfig
deriving DecidableEq, Repr

/-- The remote calls the resource implementation can issue. -/
inductive RemoteCall
  | registerDomain
  | getOperationDetail
  | updateDomainNameservers
  | getDomainDetail
  | listHostedZonesByName
  | listResourceRecordSets
  | deleteHostedZone
  | deleteDomain
deriving DecidableEq, Repr

/-- Canned responses of the Route53 Domains registry for one Create/Read run:
the result of RegisterDomain, the result of the i-th GetOperationDetail poll,
and the results of UpdateDomainNameservers and GetDomainDetail. -/
structure RegistryEnv where
  registerResult : Except String String
  pollResults : Nat → Except String OperationDetail
  updateNameserversResult : Except String Unit
  getDomainDetailResult : Except String DomainDetail

/-- Canned responses of the Route53 DNS service: the account's hosted zones in
the order the service returns them (or a transport error), the record sets of
each zone by zone id, and the result of DeleteHostedZone. -/
structure ZoneEnv where
  zonesResult : Except String (List HostedZone)
  recordsOf : String → Except String (List ResourceRecordSet)
  deleteZoneResult : Except String Unit

/-! Zone Guard: findHostedZoneID and deleteRegistrarHostedZone -/

/-- Embeds strings.TrimSuffix(name, "."): remove one trailing dot if present. -/
def trimTrailingDot (s : String) : String :=
  if s.data.getLast? = some '.' then String.mk s.data.dropLast else s

/-- The zone id path prefix the source strips with strings.TrimPrefix. -/
def hostedZonePath : String := "/hostedzone/"

/-- Embeds strings.TrimPrefix(id, "/hostedzone/"): remove the path if present. -/
def extractZoneID (s : String) : String :=
  if s.data.take 12 = hostedZonePath.data then String.mk (s.data.drop 12) else s

/-- The sentinel comment Route53 puts on registrar-auto-created zones. -/
def registrarComment : String := "HostedZone created by Route53 Registrar"

/-- Embeds the check zone.Config != nil && zone.Config.PrivateZone. -/
def zoneIsPrivate (z : HostedZone) : Bool :=
  match z.config with
  | some c => c.privateZone
  | none => false

/-- Embeds the comment extraction: empty string when Config or Comment is nil. -/
def zoneComment (z : HostedZone) : String :=
  match z.config with
  | some c => c.comment.getD ""
  | none => ""

/-- Exact-name test after trailing-separator normalization. -/
def nameMatches (domainName : String) (z : HostedZone) : Bool :=
  trimTrailingDot z.name == domainName

/-- True when a record is of type NS or SOA. -/
def isNSorSOA (rec : ResourceRecordSet) : Bool :=
  rec.rtype == "NS" || rec.rtype == "SOA"

/-- The remote ListHostedZonesByName service truncated to MaxItems entries. -/
def listHostedZonesByName (zones : List HostedZone) (maxItems : Nat) : List HostedZone :=
  zones.take maxItems

/-- Embeds findHostedZoneID: list zones by name with MaxItems = 1, scan the
returned zones for an exact match after trailing-dot normalization, and strip
the "/hostedzone/" path from the id of the match. -/
def findHostedZoneID (zonesResult : Except String (List HostedZone))
    (domainName : String) : Except String String :=
  match zonesResult with
  | .error e => .error ("failed to list hosted zones: " ++ e)
  | .ok zones =>
    match (listHostedZonesByName zones 1).find? (nameMatches domainName) with
    | some zone => .ok (extractZoneID zone.id)
    | none => .error ("hosted zone not found for domain " ++ domainName)

/-- Outcome of deleteRegistrarHostedZone; each constructor corresponds to one
distinct return of the source function. -/
inductive ZoneDeleteOutcome
  | deleted
  | listZonesError (msg : String)
  | skippedPrivate
  | commentMismatch (actual : String)
  | hasCustomRecords (recordName recordType : String)
  | recordsListError (msg : String)
  | deleteZoneError (msg : String)
  | notFound
deriving DecidableEq, Repr

/-- Embeds deleteRegistrarHostedZone: list zones by name (MaxItems = 1), find
the exact-name match, then check in order: public, registrar comment, only
NS/SOA records; only if all pass, issue DeleteHostedZone. Also returns the
trace of remote calls issued. -/
def deleteRegistrarHostedZone (env : ZoneEnv) (domainName : String) :
    ZoneDeleteOutcome × List RemoteCall :=
  match env.zonesResult with
  | .error e => (.listZonesError e, [.listHostedZonesByName])
  | .ok zones =>
    match (listHostedZonesByName zones 1).find? (nameMatches domainName) with
    | none => (.notFound, [.listHostedZonesByName])
    | some zone =>
      if zoneIsPrivate zone then
        (.skippedPrivate, [.listHostedZonesByName])
      else if zoneComment zone != registrarComment then
        (.commentMismatch (zoneComment zone), [.listHostedZonesByName])
      else
        match env.recordsOf zone.id with
        | .error e => (.recordsListError e, [.listHostedZonesByName, .listResourceRecordSets])
        | .ok records =>
          match records.find? (fun rec => !(isNSorSOA rec)) with
          | some rec =>
            (.hasCustomRecords rec.name rec.rtype,
              [.listHostedZonesByName, .listResourceRecordSets])
          | none =>
            match env.deleteZoneResult with
            | .error e =>
              (.deleteZoneError e,
                [.listHostedZonesByName, .listResourceRecordSets, .deleteHostedZone])
            | .ok _ =>
              (.deleted,
                [.listHostedZonesByName, .listResourceRecordSets, .deleteHostedZone])

/-- Zone environment holding exactly one candidate zone with given records. -/
def singleZoneEnv (z : HostedZone) (records : List ResourceRecordSet) : ZoneEnv :=
  { zonesResult := .ok [z]
  , recordsOf := fun _ => .ok records
  , deleteZoneResult := .ok () }

/-! Registration Orchestrator: the Create polling loop and its continuation -/

/-- The plan data the Create path reads: domain name, registration parameters,
the custom nameserver list, the wall-clock timeout in seconds, and the
delete-hosted-zone flag. -/
structure CreateRequest where
  domainName : String
  durationYears : Nat
  autoRenew : Bool
  nameservers : List String
  registrationTimeout : Nat
  deleteHostedZone : Bool
deriving DecidableEq, Repr

/-- How the polling loop of Create ends. The loop body breaks on SUCCESSFUL,
returns a diagnostic on FAILED, ERROR or a poll transport error, and otherwise
sleeps 10 seconds; the loop condition re-checks the wall clock against the
deadline, so the loop can also end by the deadline elapsing. -/
inductive PollExit
  | success
  | deadline
  | failedStatus (msg : String)
  | errorStatus (msg : String)
  | checkError (msg : String)
deriving DecidableEq, Repr

/-- Embeds the Create polling loop with discrete time: the i-th iteration polls
at wall-clock time 10*i, and the loop condition (now before deadline) holds for
exactly ceil(timeout/10) iterations when no poll is terminal. fuel is the
number of loop-condition checks that can still pass; the returned Nat is the
total number of GetOperationDetail calls made. -/
def pollLoop (renv : RegistryEnv) : Nat → Nat → PollExit × Nat
  | i, 0 => (.deadline, i)
  | i, fuel + 1 =>
    match renv.pollResults i with
    | .error e => (.checkError e, i + 1)
    | .ok det =>
      match det.status with
      | .successful => (.success, i + 1)
      | .failed => (.failedStatus det.message, i + 1)
      | .error => (.errorStatus det.message, i + 1)
      | .pending => pollLoop renv (i + 1) fuel
      | .inProgress => pollLoop renv (i + 1) fuel

/-- Number of loop iterations the wall-clock deadline admits: polls happen at
times 0, 10, 20, ... strictly before the deadline timeout. -/
def pollFuel (timeoutSeconds : Nat) : Nat := (timeoutSeconds + 9) / 10

/-- The outcome of the Create path; each error constructor corresponds to one
distinct AddError diagnostic in the source, and done carries the fetched domain
detail and the hosted-zone id stored in state. -/
inductive CreateResult
  | submitError (msg : String)
  | statusCheckError (msg : String)
  | registrationFailed (msg : String)
  | registrationError (msg : String)
  | nameserverUpdateError (msg : String)
  | detailReadError (msg : String)
  | done (detail : DomainDetail) (hostedZoneID : Option String)
deriving DecidableEq, Repr

/-- Embeds the hosted-zone block at the end of Create: with the
delete-hosted-zone flag set, attempt the guarded deletion and on any failure
fall back to looking the zone id up for state; without the flag, just look the
zone id up. Returns the stored hosted-zone id and the remote calls issued. -/
def zonePhase (zenv : ZoneEnv) (deleteFlag : Bool) (domainName : String) :
    Option String × List RemoteCall :=
  if deleteFlag then
    let zres := deleteRegistrarHostedZone zenv domainName
    match zres.1 with
    | .deleted => (none, zres.2)
    | _ =>
      match findHostedZoneID zenv.zonesResult domainName with
      | .ok zid => (some zid, zres.2 ++ [.listHostedZonesByName])
      | .error _ => (none, zres.2 ++ [.listHostedZonesByName])
  else
    match findHostedZoneID zenv.zonesResult domainName with
    | .ok zid => (some zid, [.listHostedZonesByName])
    | .error _ => (none, [.listHostedZonesByName])

/-- Embeds the tail of Create after the nameserver step: fetch the domain
detail (error is terminal), then run the hosted-zone block and set state. -/
def finishCreate (renv : RegistryEnv) (zenv : ZoneEnv) (req : CreateRequest)
    (trace : List RemoteCall) : CreateResult × List RemoteCall :=
  match renv.getDomainDetailResult with
  | .error e => (.detailReadError e, trace ++ [.getDomainDetail])
  | .ok detail =>
    let hz := zonePhase zenv req.deleteHostedZone req.domainName
    (.done detail hz.1, trace ++ [.getDomainDetail] ++ hz.2)

/-- Embeds Create: submit RegisterDomain, poll GetOperationDetail until a
terminal status or the deadline, then (both on SUCCESSFUL and on deadline
exhaustion, which the source treats identically) update nameservers when a
non-empty list was requested, fetch the domain detail and handle the hosted
zone. -/
def createRun (renv : RegistryEnv) (zenv : ZoneEnv) (req : CreateRequest) :
    CreateResult × List RemoteCall :=
  match renv.registerResult with
  | .error e => (.submitError e, [.registerDomain])
  | .ok _ =>
    match pollLoop renv 0 (pollFuel req.registrationTimeout) with
    | (pexit, polls) =>
      let preTrace := RemoteCall.registerDomain :: List.replicate polls .getOperationDetail
      match pexit with
      | .checkError e => (.statusCheckError e, preTrace)
      | .failedStatus m => (.registrationFailed m, preTrace)
      | .errorStatus m => (.registrationError m, preTrace)
      | .success | .deadline =>
        if req.nameservers.isEmpty then
          finishCreate renv zenv req preTrace
        else
          match renv.updateNameserversResult with
          | .error e => (.nameserverUpdateError e, preTrace ++ [.updateDomainNameservers])
          | .ok _ => finishCreate renv zenv req (preTrace ++ [.updateDomainNameservers])

/-! Read and Delete -/

/-- The outcome of the Read path: any detail-fetch error removes the resource
from state; otherwise state is refreshed with the detail and zone id. -/
inductive ReadResult
  | removedFromState
  | updated (detail : DomainDetail) (hostedZoneID : Option String)
deriving DecidableEq, Repr

/-- Embeds Read: fetch the domain detail; on any error remove the resource from
state and stop, otherwise refresh the computed fields and the hosted-zone id. -/
def readRun (renv : RegistryEnv) (zenv : ZoneEnv) (domainName : String) :
    ReadResult × List RemoteCall :=
  match renv.getDomainDetailResult with
  | .error _ => (.removedFromState, [.getDomainDetail])
  | .ok detail =>
    match findHostedZoneID zenv.zonesResult domainName with
    | .ok zid => (.updated detail (some zid), [.getDomainDetail, .listHostedZonesByName])
    | .error _ => (.updated detail none, [.getDomainDetail, .listHostedZonesByName])

/-- The outcome of the Delete path. removedFromStateOnly is the allow-delete
false branch; deleteDomainError is the only hard diagnostic; completed carries
the best-effort zone-guard outcome. -/
inductive DeleteResult
  | removedFromStateOnly
  | deleteDomainError (msg : String)
  | completed (zoneOutcome : ZoneDeleteOutcome)
deriving DecidableEq, Repr

/-- Canned remote responses for one Delete run. -/
structure DeleteEnv where
  deleteDomainResult : Except String Unit
  zoneEnv : ZoneEnv

/-- Embeds Delete: with allow-delete false, return at once (state-only removal,
no remote call); otherwise call DeleteDomain (error is a hard diagnostic) and
then run the hosted-zone guard, whose failure is only logged. -/
def deleteRun (env : DeleteEnv) (allowDelete : Bool) (domainName : String) :
    DeleteResult × List RemoteCall :=
  if !allowDelete then
    (.removedFromStateOnly, [])
  else
    match env.deleteDomainResult with
    | .error e => (.deleteDomainError e, [.deleteDomain])
    | .ok _ =>
      let zres := deleteRegistrarHostedZone env.zoneEnv domainName
      (.completed zres.1, .deleteDomain :: zres.2)

/-- True only for the Delete outcomes reported as hard diagnostics. -/
def hardDeleteError : DeleteResult → Bool
  | .deleteDomainError _ => true
  | _ => false

/-! Poll-loop lemmas -/

/-- The i-th poll answers with a non-terminal status (PENDING or IN_PROGRESS). -/
def nonTerminalPoll (renv : RegistryEnv) (i : Nat) : Prop :=
  ∃ det, renv.pollResults i = .ok det ∧
    (det.status = OperationStatus.pending ∨ det.status = OperationStatus.inProgress)

/-- The poll exit the loop body produces when it observes a terminal status. -/
def terminalExit (det : OperationDetail) : PollExit :=
  match det.status with
  | .successful => .success
  | .failed => .failedStatus det.message
  | .error => .errorStatus det.message
  | .pending => .deadline
  | .inProgress => .deadline

lemma pollLoop_all_nonterminal (renv : RegistryEnv)
    (h : ∀ j, nonTerminalPoll renv j) :
    ∀ (fuel i : Nat), pollLoop renv i fuel = (.deadline, i + fuel) := by
  intro fuel
  induction fuel with
  | zero => intro i; simp [pollLoop]
  | succ f ih =>
    intro i
    obtain ⟨det, hdet, hst⟩ := h i
    have harith : i + 1 + f = i + (f + 1) := by omega
    rcases hst with hs | hs <;>
      simp [pollLoop, hdet, hs, ih (i + 1), harith]

lemma pollLoop_exit_at (renv : RegistryEnv) :
    ∀ (k fuel i : Nat), k < fuel →
      (∀ j, j < k → nonTerminalPoll renv (i + j)) →
      ∀ det, renv.pollResults (i + k) = .ok det →
        det.status ≠ .pending → det.status ≠ .inProgress →
        pollLoop renv i fuel = (terminalExit det, i + k + 1) := by
  intro k
  induction k with
  | zero =>
    intro fuel i hk hpre det hdet h1 h2
    obtain ⟨f, rfl⟩ : ∃ f, fuel = f + 1 := ⟨fuel - 1, by omega⟩
    simp only [Nat.add_zero] at hdet
    cases hst : det.status <;> simp_all [pollLoop, terminalExit]
  | succ k ih =>
    intro fuel i hk hpre det hdet h1 h2
    obtain ⟨f, rfl⟩ : ∃ f, fuel = f + 1 := ⟨fuel - 1, by omega⟩
    obtain ⟨d0, hd0, hs0⟩ := hpre 0 (Nat.succ_pos k)
    simp only [Nat.add_zero] at hd0
    have hpre1 : ∀ j, j < k → nonTerminalPoll renv (i + 1 + j) := by
      intro j hj
      have hmem := hpre (j + 1) (by omega)
      have e : i + (j + 1) = i + 1 + j := by omega
      rwa [e] at hmem
    have hdet1 : renv.pollResults (i + 1 + k) = .ok det := by
      have e : i + 1 + k = i + (k + 1) := by omega
      rwa [e]
    have hrec := ih f (i + 1) (by omega) hpre1 det hdet1 h1 h2
    have e2 : i + 1 + k + 1 = i + (k + 1) + 1 := by omega
    rcases hs0 with hs | hs <;>
      simp [pollLoop, hd0, hs, hrec, e2]

/-! Concrete environments used as counterexample and witness inputs -/

/-- A domain detail snapshot used by concrete environments. -/
def detailExample : DomainDetail :=
  { statusList := ["ok"]
  , expirationDate := some "2027-01-01T00:00:00Z"
  , creationDate := some "2026-01-01T00:00:00Z"
  , nameservers := []
  , autoRenew := some false }

/-- A registry whose polls answer IN_PROGRESS forever. -/
def renvTimeout : RegistryEnv :=
  { registerResult := .ok "op-123"
  , pollResults := fun _ => .ok { status := .inProgress, message := "" }
  , updateNameserversResult := .ok ()
  , getDomainDetailResult := .ok detailExample }

/-- A DNS service with no hosted zones. -/
def zenvEmpty : ZoneEnv :=
  { zonesResult := .ok []
  , recordsOf := fun _ => .ok []
  , deleteZoneResult := .ok () }

/-- A request with custom nameservers and a 30-second registration timeout. -/
def reqTimeout : CreateRequest :=
  { domainName := "example.com"
  , durationYears := 1
  , autoRenew := false
  , nameservers := ["ns1.example.net"]
  , registrationTimeout := 30
  , deleteHostedZone := false }

/-! C1 -/

/-- C1 is false on the code: with every poll returning IN_PROGRESS until the
30-second deadline elapses, Create does not return any timeout failure — it
issues the UpdateDomainNameservers and GetDomainDetail calls after the deadline
and reaches Done. -/
theorem create_timeout_claim_counterexample :
    (createRun renvTimeout zenvEmpty reqTimeout).1 = .done detailExample none ∧
    RemoteCall.updateDomainNameservers ∈ (createRun renvTimeout zenvEmpty reqTimeout).2 ∧
    RemoteCall.getDomainDetail ∈ (createRun renvTimeout zenvEmpty reqTimeout).2 := by
  decide

/-- C1 (amended): for every registration request whose polling sequence returns
a non-terminal status (PENDING or IN_PROGRESS) on every poll, the wall-clock
deadline elapses and Create reports no failure for the exhausted wait: it
proceeds to the nameserver-update and domain-detail-fetch steps exactly as on
success and reaches Done when those calls succeed. -/
theorem create_timeout_falls_through (renv : RegistryEnv) (zenv : ZoneEnv)
    (req : CreateRequest) (op : String) (d : DomainDetail)
    (hreg : renv.registerResult = .ok op)
    (hpoll : ∀ j, nonTerminalPoll renv j)
    (hns : req.nameservers ≠ [])
    (hup : renv.updateNameserversResult = .ok ())
    (hdet : renv.getDomainDetailResult = .ok d) :
    (∃ hz, (createRun renv zenv req).1 = .done d hz) ∧
    RemoteCall.updateDomainNameservers ∈ (createRun renv zenv req).2 ∧
    RemoteCall.getDomainDetail ∈ (createRun renv zenv req).2 := by
  have hE : req.nameservers.isEmpty = false := by
    cases hn : req.nameservers with
    | nil => exact absurd hn hns
    | cons a l => rfl
  simp only [createRun, hreg, pollLoop_all_nonterminal renv hpoll, hE, hup,
    finishCreate, hdet, Bool.false_eq_true, if_false]
  refine ⟨⟨(zonePhase zenv req.deleteHostedZone req.domainName).1, rfl⟩, ?_, ?_⟩ <;>
    simp [List.mem_append]

/-- Witness for create_timeout_falls_through at the concrete always-IN_PROGRESS
registry. -/
theorem create_timeout_falls_through_witness :
    (∃ hz, (createRun renvTimeout zenvEmpty reqTimeout).1 = .done detailExample hz) ∧
    RemoteCall.updateDomainNameservers ∈ (createRun renvTimeout zenvEmpty reqTimeout).2 ∧
    RemoteCall.getDomainDetail ∈ (createRun renvTimeout zenvEmpty reqTimeout).2 :=
  create_timeout_falls_through renvTimeout zenvEmpty reqTimeout "op-123" detailExample rfl
    (fun _ => ⟨{ status := .inProgress, message := "" }, rfl, Or.inr rfl⟩)
    (by decide) rfl rfl

/-! C5 -/

/-- C5: when the n-th poll (all earlier polls non-terminal, n within the
deadline budget) answers FAILED or ERROR, Create returns the corresponding
terminal registry-rejection diagnostic carrying the remote message, and the
trace contains neither an UpdateDomainNameservers nor a GetDomainDetail call. -/
theorem create_registry_rejected (renv : RegistryEnv) (zenv : ZoneEnv)
    (req : CreateRequest) (op : String) (n : Nat) (det : OperationDetail)
    (hreg : renv.registerResult = .ok op)
    (hfuel : n < pollFuel req.registrationTimeout)
    (hpre : ∀ j, j < n → nonTerminalPoll renv j)
    (hn : renv.pollResults n = .ok det)
    (hst : det.status = .failed ∨ det.status = .error) :
    ((createRun renv zenv req).1 = .registrationFailed det.message ∧ det.status = .failed ∨
      (createRun renv zenv req).1 = .registrationError det.message ∧ det.status = .error) ∧
    RemoteCall.updateDomainNameservers ∉ (createRun renv zenv req).2 ∧
    RemoteCall.getDomainDetail ∉ (createRun renv zenv req).2 := by
  have hpre0 : ∀ j, j < n → nonTerminalPoll renv (0 + j) := by
    intro j hj; simpa using hpre j hj
  have hn0 : renv.pollResults (0 + n) = .ok det := by simpa using hn
  rcases hst with hs | hs
  · have hexit := pollLoop_exit_at renv n (pollFuel req.registrationTimeout) 0 hfuel hpre0 det
      hn0 (by simp [hs]) (by simp [hs])
    have hterm : terminalExit det = .failedStatus det.message := by
      simp [terminalExit, hs]
    rw [hterm] at hexit
    simp only [createRun, hreg, hexit]
    refine ⟨Or.inl ⟨by simp, hs⟩, ?_, ?_⟩ <;>
      simp [List.mem_replicate]
  · have hexit := pollLoop_exit_at renv n (pollFuel req.registrationTimeout) 0 hfuel hpre0 det
      hn0 (by simp [hs]) (by simp [hs])
    have hterm : terminalExit det = .errorStatus det.message := by
      simp [terminalExit, hs]
    rw [hterm] at hexit
    simp only [createRun, hreg, hexit]
    refine ⟨Or.inr ⟨by simp, hs⟩, ?_, ?_⟩ <;>
      simp [List.mem_replicate]

/-- A registry whose first poll already answers FAILED. -/
def renvRejected : RegistryEnv :=
  { registerResult := .ok "op-456"
  , pollResults := fun _ => .ok { status := .failed, message := "rejected by registry" }
  , updateNameserversResult := .ok ()
  , getDomainDetailResult := .ok detailExample }

/-- Witness for create_registry_rejected with the FAILED answer on poll 0. -/
theorem create_registry_rejected_witness :
    ((createRun renvRejected zenvEmpty reqTimeout).1 = .registrationFailed "rejected by registry" ∧
        OperationStatus.failed = OperationStatus.failed ∨
      (createRun renvRejected zenvEmpty reqTimeout).1 = .registrationError "rejected by registry" ∧
        OperationStatus.failed = OperationStatus.error) ∧
    RemoteCall.updateDomainNameservers ∉ (createRun renvRejected zenvEmpty reqTimeout).2 ∧
    RemoteCall.getDomainDetail ∉ (createRun renvRejected zenvEmpty reqTimeout).2 :=
  create_registry_rejected renvRejected zenvEmpty reqTimeout "op-456" 0
    { status := .failed, message := "rejected by registry" } rfl (by decide)
    (fun j hj => absurd hj (Nat.not_lt_zero j)) rfl (Or.inl rfl)

/-! C6 -/

/-- C6: when polling reaches SUCCESSFUL (earlier polls non-terminal, within the
deadline budget), a non-empty nameserver list was requested, and the
UpdateDomainNameservers call fails, Create returns the nameserver-update
diagnostic — distinct from every registration-failure diagnostic — the trace
contains no GetDomainDetail call, and RegisterDomain appears exactly once in
the trace (registration is not re-submitted). -/
theorem create_nameserver_error_terminal (renv : RegistryEnv) (zenv : ZoneEnv)
    (req : CreateRequest) (op : String) (n : Nat) (det : OperationDetail) (e : String)
    (hreg : renv.registerResult = .ok op)
    (hfuel : n < pollFuel req.registrationTimeout)
    (hpre : ∀ j, j < n → nonTerminalPoll renv j)
    (hn : renv.pollResults n = .ok det)
    (hst : det.status = .successful)
    (hns : req.nameservers ≠ [])
    (hup : renv.updateNameserversResult = .error e) :
    (createRun renv zenv req).1 = .nameserverUpdateError e ∧
    (∀ m, (createRun renv zenv req).1 ≠ .registrationFailed m) ∧
    RemoteCall.getDomainDetail ∉ (createRun renv zenv req).2 ∧
    (createRun renv zenv req).2.count .registerDomain = 1 := by
  have hpre0 : ∀ j, j < n → nonTerminalPoll renv (0 + j) := by
    intro j hj; simpa using hpre j hj
  have hn0 : renv.pollResults (0 + n) = .ok det := by simpa using hn
  have hexit := pollLoop_exit_at renv n (pollFuel req.registrationTimeout) 0 hfuel hpre0 det
    hn0 (by simp [hst]) (by simp [hst])
  have hterm : terminalExit det = .success := by
    simp [terminalExit, hst]
  rw [hterm] at hexit
  have hE : req.nameservers.isEmpty = false := by
    cases hne : req.nameservers with
    | nil => exact absurd hne hns
    | cons a l => rfl
  simp only [createRun, hreg, hexit, hE, hup, Bool.false_eq_true, if_false]
  refine ⟨by simp, fun m => by simp, ?_, ?_⟩
  · simp [List.mem_append, List.mem_replicate]
  · simp [List.count_append, List.count_cons, List.count_replicate]

/-- A registry whose first poll answers SUCCESSFUL but whose nameserver update
fails. -/
def renvNsFail : RegistryEnv :=
  { registerResult := .ok "op-789"
  , pollResults := fun _ => .ok { status := .successful, message := "" }
  , updateNameserversResult := .error "invalid glue record"
  , getDomainDetailResult := .ok detailExample }

/-- Witness for create_nameserver_error_terminal at the concrete registry whose
nameserver update fails after a first-poll success. -/
theorem create_nameserver_error_terminal_witness :
    (createRun renvNsFail zenvEmpty reqTimeout).1 = .nameserverUpdateError "invalid glue record" ∧
    (∀ m, (createRun renvNsFail zenvEmpty reqTimeout).1 ≠ .registrationFailed m) ∧
    RemoteCall.getDomainDetail ∉ (createRun renvNsFail zenvEmpty reqTimeout).2 ∧
    (createRun renvNsFail zenvEmpty reqTimeout).2.count .registerDomain = 1 :=
  create_nameserver_error_terminal renvNsFail zenvEmpty reqTimeout "op-789" 0
    { status := .successful, message := "" } "invalid glue record" rfl (by decide)
    (fun j hj => absurd hj (Nat.not_lt_zero j)) rfl rfl (by decide) rfl

/-! C2 and C3: the safe-delete predicates -/

/-- A public zone carrying the registrar sentinel comment, named for
example.com. -/
def registrarZone : HostedZone :=
  { name := "example.com."
  , id := "/hostedzone/Z0001"
  , config := some { privateZone := false, comment := some registrarComment } }

/-- The records of a freshly auto-created zone: one NS and two SOA entries. -/
def nsSoaRecords : List ResourceRecordSet :=
  [ { name := "example.com.", rtype := "NS" }
  , { name := "example.com.", rtype := "SOA" }
  , { name := "example.com.", rtype := "SOA" } ]

/-- A custom record that must block deletion. -/
def aRecord : ResourceRecordSet := { name := "www.example.com.", rtype := "A" }

/-- C2: against a single candidate zone whose record listing succeeds, the
DeleteHostedZone call is issued iff the four predicates hold — exact name after
trailing-dot normalization, public visibility, the registrar sentinel comment,
and only NS/SOA records. Concretely, the matching public zone with records
[NS, SOA, SOA] is deleted, and the same zone with one additional A record is
skipped with the has-custom-records reason. -/
theorem zone_delete_iff :
    (∀ (z : HostedZone) (records : List ResourceRecordSet) (d : String),
      RemoteCall.deleteHostedZone ∈ (deleteRegistrarHostedZone (singleZoneEnv z records) d).2 ↔
        (trimTrailingDot z.name = d ∧ zoneIsPrivate z = false ∧
          zoneComment z = registrarComment ∧ ∀ r ∈ records, isNSorSOA r = true)) ∧
    (deleteRegistrarHostedZone (singleZoneEnv registrarZone nsSoaRecords) "example.com").1 =
      .deleted ∧
    (deleteRegistrarHostedZone (singleZoneEnv registrarZone (nsSoaRecords ++ [aRecord]))
        "example.com").1 =
      .hasCustomRecords "www.example.com." "A" := by
  refine ⟨?_, by decide, by decide⟩
  intro z records d
  by_cases h1 : trimTrailingDot z.name = d
  · have hb : nameMatches d z = true := by simp [nameMatches, h1]
    by_cases h2 : zoneIsPrivate z
    · simp [deleteRegistrarHostedZone, singleZoneEnv, listHostedZonesByName,
        List.find?, hb, h2]
    · by_cases h3 : zoneComment z = registrarComment
      · cases hfind : records.find? (fun rec => !(isNSorSOA rec)) with
        | none =>
          have hall : ∀ r ∈ records, isNSorSOA r = true := by
            intro r hr
            have := List.find?_eq_none.mp hfind r hr
            simpa using this
          simp [deleteRegistrarHostedZone, singleZoneEnv, listHostedZonesByName,
            List.find?, hb, h2, h3, hfind, h1]
          exact hall
        | some rec =>
          have hmem : rec ∈ records := List.mem_of_find?_eq_some hfind
          have hbad : isNSorSOA rec = false := by
            have := List.find?_some hfind
            simpa using this
          have hnall : ¬ ∀ r ∈ records, isNSorSOA r = true := by
            intro hall
            have htrue := hall rec hmem
            rw [htrue] at hbad
            exact Bool.noConfusion hbad
          simp [deleteRegistrarHostedZone, singleZoneEnv, listHostedZonesByName,
            List.find?, hb, h2, h3, hfind, hnall]
      · simp [deleteRegistrarHostedZone, singleZoneEnv, listHostedZonesByName,
          List.find?, hb, h2, h3, bne]
  · have hb : nameMatches d z = false := by
      simp [nameMatches]
      exact h1
    simp [deleteRegistrarHostedZone, singleZoneEnv, listHostedZonesByName,
      List.find?, hb, h1]

/-- Witness for zone_delete_iff: the right-to-left direction of the invariant
at the concrete registrar-created zone with records [NS, SOA, SOA]. -/
theorem zone_delete_iff_witness :
    RemoteCall.deleteHostedZone ∈
      (deleteRegistrarHostedZone (singleZoneEnv registrarZone nsSoaRecords) "example.com").2 :=
  (zone_delete_iff.1 registrarZone nsSoaRecords "example.com").mpr (by decide)

/-- C3: for a candidate zone that is both private and holds a custom
(non-NS/SOA) record, safeDelete reports the private-zone reason — never the
has-custom-records reason — and never issues the record-listing call: the
predicates are evaluated in a fixed order and short-circuit at the first
failure. -/
theorem zone_delete_private_first (z : HostedZone) (records : List ResourceRecordSet)
    (d : String)
    (hname : trimTrailingDot z.name = d)
    (hpriv : zoneIsPrivate z = true)
    (hcustom : ∃ r ∈ records, isNSorSOA r = false) :
    (deleteRegistrarHostedZone (singleZoneEnv z records) d).1 = .skippedPrivate ∧
    (∀ rn rt, (deleteRegistrarHostedZone (singleZoneEnv z records) d).1 ≠
      .hasCustomRecords rn rt) ∧
    RemoteCall.listResourceRecordSets ∉ (deleteRegistrarHostedZone (singleZoneEnv z records) d).2 := by
  have hb : nameMatches d z = true := by simp [nameMatches, hname]
  simp [deleteRegistrarHostedZone, singleZoneEnv, listHostedZonesByName,
    List.find?, hb, hpriv]

/-- A private zone named for example.com with the registrar comment. -/
def privateRegistrarZone : HostedZone :=
  { name := "example.com."
  , id := "/hostedzone/Z0009"
  , config := some { privateZone := true, comment := some registrarComment } }

/-- Witness for zone_delete_private_first: a private zone that also holds an A
record is skipped as private, without listing its records. -/
theorem zone_delete_private_first_witness :
    (deleteRegistrarHostedZone (singleZoneEnv privateRegistrarZone [aRecord]) "example.com").1 =
      .skippedPrivate ∧
    (∀ rn rt,
      (deleteRegistrarHostedZone (singleZoneEnv privateRegistrarZone [aRecord]) "example.com").1 ≠
        .hasCustomRecords rn rt) ∧
    RemoteCall.listResourceRecordSets ∉
      (deleteRegistrarHostedZone (singleZoneEnv privateRegistrarZone [aRecord]) "example.com").2 :=
  zone_delete_private_first privateRegistrarZone [aRecord] "example.com" (by decide) (by decide)
    ⟨aRecord, by decide, by decide⟩

/-! C4 and C9: exact-match zone lookup over at most one returned candidate -/

/-- The exactly-matching hosted zone for example.com. -/
def exactZone : HostedZone := { name := "example.com.", id := "/hostedzone/Z0002", config := none }

/-- A zone sharing the suffix but not the name. -/
def subZone : HostedZone := { name := "sub.example.com.", id := "/hostedzone/Z0003", config := none }

/-- A zone sharing a prefix of the spelling but not the name. -/
def notExactZone : HostedZone :=
  { name := "notexample.com.", id := "/hostedzone/Z0004", config := none }

/-- C4: locate requires an exact name match after separator normalization — the
zone named "example.com." is found for "example.com" (and its id is stripped of
the path), while listings holding only "sub.example.com." or "notexample.com."
yield the not-found error, never a fuzzy hit. -/
theorem locate_exact_match_only :
    findHostedZoneID (.ok [exactZone]) "example.com" = .ok "Z0002" ∧
    findHostedZoneID (.ok [subZone]) "example.com" =
      .error "hosted zone not found for domain example.com" ∧
    findHostedZoneID (.ok [notExactZone]) "example.com" =
      .error "hosted zone not found for domain example.com" := by
  decide

/-- C9: the lookup requests at most one candidate (MaxItems = 1) and inspects
only the returned candidates: whenever the first zone the service returns is
not the exact match, the lookup reports not-found even though an exact-matching
zone exists further down the account listing. -/
theorem locate_first_candidate_only (z0 : HostedZone) (rest : List HostedZone) (d : String)
    (h0 : trimTrailingDot z0.name ≠ d)
    (hex : ∃ z ∈ rest, trimTrailingDot z.name = d) :
    findHostedZoneID (.ok (z0 :: rest)) d =
      .error ("hosted zone not found for domain " ++ d) := by
  have hb : nameMatches d z0 = false := by
    simp [nameMatches]
    exact h0
  simp [findHostedZoneID, listHostedZonesByName, List.find?, hb]

/-- Witness for locate_first_candidate_only: the exact zone exists in the
account but comes after the first returned candidate, so locate misses it. -/
theorem locate_first_candidate_only_witness :
    findHostedZoneID (.ok [subZone, exactZone]) "example.com" =
      .error ("hosted zone not found for domain " ++ "example.com") :=
  locate_first_candidate_only subZone [exactZone] "example.com" (by decide)
    ⟨exactZone, by decide, by decide⟩

/-! C7: zone cleanup during teardown is best-effort -/

/-- C7: once Delete is allowed and the DeleteDomain call has succeeded, the
hosted-zone safe-delete outcome — whatever it is: not found, a failed
predicate, or a remote delete error — is only carried as the best-effort part
of a completed teardown and is never a hard diagnostic. -/
theorem delete_zone_failure_not_propagated (env : DeleteEnv) (d : String)
    (h : env.deleteDomainResult = .ok ()) :
    (deleteRun env true d).1 = .completed (deleteRegistrarHostedZone env.zoneEnv d).1 ∧
    hardDeleteError (deleteRun env true d).1 = false := by
  simp [deleteRun, h, hardDeleteError]

/-- A teardown environment whose domain delete succeeds but whose hosted-zone
delete fails remotely. -/
def deleteEnvRemoteFail : DeleteEnv :=
  { deleteDomainResult := .ok ()
  , zoneEnv :=
    { zonesResult := .ok [registrarZone]
    , recordsOf := fun _ => .ok nsSoaRecords
    , deleteZoneResult := .error "rate exceeded" } }

/-- Witness for delete_zone_failure_not_propagated: a remote DeleteHostedZone
failure after a successful DeleteDomain still completes the teardown. -/
theorem delete_zone_failure_not_propagated_witness :
    (deleteRun deleteEnvRemoteFail true "example.com").1 =
      .completed (deleteRegistrarHostedZone deleteEnvRemoteFail.zoneEnv "example.com").1 ∧
    hardDeleteError (deleteRun deleteEnvRemoteFail true "example.com").1 = false :=
  delete_zone_failure_not_propagated deleteEnvRemoteFail "example.com" rfl

/-! C8: any Read error removes the resource from state -/

/-- C8: in Read, every error of the GetDomainDetail fetch — whatever its
message, transient or not — removes the resource from local state; there is no
separate read-error outcome distinguished from absence. -/
theorem read_error_removes_state (renv : RegistryEnv) (zenv : ZoneEnv) (d e : String)
    (h : renv.getDomainDetailResult = .error e) :
    (readRun renv zenv d).1 = .removedFromState := by
  simp [readRun, h]

/-- A registry whose detail fetch fails with a transient-looking throttling
error. -/
def renvReadFail : RegistryEnv :=
  { registerResult := .ok "op-999"
  , pollResults := fun _ => .ok { status := .successful, message := "" }
  , updateNameserversResult := .ok ()
  , getDomainDetailResult := .error "Throttling: rate exceeded" }

/-- Witness for read_error_removes_state: a throttling error, not an absence,
still removes the resource from state. -/
theorem read_error_removes_state_witness :
    (readRun renvReadFail zenvEmpty "example.com").1 = .removedFromState :=
  read_error_removes_state renvReadFail zenvEmpty "example.com" "Throttling: rate exceeded" rfl

/-! C10: with allow-delete false, Delete touches nothing remote -/

/-- C10: for every stored state with the allow-delete flag false, Delete issues
no remote call at all — the trace is empty, so neither the domain registration
nor any hosted-zone call happens — and only the local state entry is removed. -/
theorem delete_disallowed_no_remote_calls (env : DeleteEnv) (d : String) :
    deleteRun env false d = (.removedFromStateOnly, []) := rfl

end AwsDomains
